import Mathlib

/-!
Shallow embedding of the media-conversion bot (src/bot.py).

The embedding models the observable behaviour of `handle_document`,
`process_mp3` and `process_mp4` as pure functions from an environment of
external outcomes (download, probe results, moviepy pipeline outcome,
ffmpeg availability and run results, send outcomes) to a trace of events
(temporary files created and unlinked, toolchain invocations, messages and
media sends).  Control flow, including the try/except/finally structure of
the source, is translated branch by branch.
-/

namespace Bot

/-- The 20 MiB hard cap on video-note payloads (bot.py lines 192, 232, 278, 311). -/
def cap : ℕ := 20 * 1024 * 1024

/-- Final square side used for video notes (bot.py line 40 and line 207). -/
def TARGET_SIDE : ℕ := 360

/-- The fixed iterative-recompression ladder (bot.py line 289):
`attempts = [ {crf:30,scale:480}, {crf:32,scale:360}, {crf:35,scale:320} ]`,
as (crf, scale) pairs. -/
def attempts : List (ℕ × ℕ) := [(30, 480), (32, 360), (35, 320)]

/-- Identifiers for the transient files a request can create.
`tempMp4` is the downloaded video asset, `tmpOut` the moviepy-padded
output, `tempFf` the ffmpeg-padded output, `tmpTry i` the output of the
i-th iterative compression attempt; `tempMp3`/`tempOgg` belong to the
audio path. -/
inductive FileId
  | tempMp4
  | tmpOut
  | tempFf
  | tmpTry (i : ℕ)
  | tempMp3
  | tempOgg
deriving DecidableEq

/-- Kinds of user-visible text messages sent during handling. -/
inductive MsgKind
  | rejectMsg
  | analyzeFailWarn
  | padNotice
  | exhaustedWarn
  | toolchainMissWarn
  | encodeFailWarn
  | mp3Error
deriving DecidableEq

/-- Labels for the distinct media-send sites in the source. -/
inductive SendTag
  | directNote
  | moviepyNote
  | ffPadNote
  | tryNote (i : ℕ)
  | exhaustedVideo
  | analyzeFailVideo
  | toolchainMissVideo
  | encodeFailVideo
  | voiceSend
deriving DecidableEq

/-- The parameters of the moviepy square-pad transform
(bot.py lines 202-226): optional trim window, which side is resized to
the target, canvas dimensions and colour, and the codecs used. -/
structure PadPlan where
  trimTo : Option ℚ
  resizeWidthTo : Option ℕ
  resizeHeightTo : Option ℕ
  canvasW : ℕ
  canvasH : ℕ
  canvasColor : ℕ × ℕ × ℕ
  vcodec : String
  acodec : String
deriving DecidableEq

/-- Observable events of a request: transient-file lifecycle, toolchain
invocations, text messages and media sends (successful or failed). -/
inductive Ev
  | created (f : FileId)
  | unlinked (f : FileId)
  | text (m : MsgKind)
  | sentOk (t : SendTag) (f : FileId)
  | sendFail (t : SendTag) (f : FileId)
  | moviepyEncode (p : PadPlan)
  | runPad (crf : ℕ) (preset : String)
  | runTry (crf scale : ℕ)
  | transcodeAudio (sampleRate channels : ℕ) (codec : String)
deriving DecidableEq

/-- Outcome of the moviepy padding pipeline (bot.py lines 199-243):
failure before the output tempfile is created, failure during
`write_videofile` (output tempfile already created), or success with a
resulting byte size. -/
inductive MoviepyRes
  | failEarly
  | failWrite
  | ok (size : ℕ)
deriving DecidableEq

/-- Environment of external outcomes a request observes: probed video
attributes, pipeline results, ffmpeg availability, per-attempt return
codes and sizes, and whether each send site succeeds. -/
structure Env where
  downloadOk : Bool
  probeOk : Bool
  duration : ℚ
  width : ℕ
  height : ℕ
  origSize : ℕ
  moviepyRes : MoviepyRes
  ffmpegInPath : Bool
  ffPadRc : ℕ
  ffPadSize : ℕ
  tryRc : ℕ → ℕ
  trySize : ℕ → ℕ
  sendOk : SendTag → Bool
  aDownloadOk : Bool
  aTranscodeOk : Bool

/-- A send attempt at a site where both success and failure end the
request (a failure propagates to the finally block). -/
def sendEv (e : Env) (t : SendTag) (f : FileId) : List Ev :=
  if e.sendOk t then [Ev.sentOk t f] else [Ev.sendFail t f]

/-- The moviepy square-pad parameters, from bot.py lines 203-226:
trim to 60 s when the duration exceeds 60; resize width to `TARGET_SIDE`
when `video.w >= video.h`, else resize height; composite centered onto a
black `TARGET_SIDE` x `TARGET_SIDE` canvas; encode with libx264/aac. -/
def padPlan (duration : ℚ) (w h : ℕ) : PadPlan where
  trimTo := if 60 < duration then some 60 else none
  resizeWidthTo := if h ≤ w then some TARGET_SIDE else none
  resizeHeightTo := if h ≤ w then none else some TARGET_SIDE
  canvasW := TARGET_SIDE
  canvasH := TARGET_SIDE
  canvasColor := (0, 0, 0)
  vcodec := "libx264"
  acodec := "aac"

/-- The moviepy padding tier (bot.py lines 199-246).  Returns the events
of the tier and whether the request returned inside it.  On an oversized
output the tempfile is kept (line 243) and control falls through to the
ffmpeg tier; on a failed send the exception is caught at line 245 and
control likewise falls through. -/
def moviepyStage (e : Env) : List Ev × Bool :=
  match e.moviepyRes with
  | .failEarly => ([Ev.text .padNotice], false)
  | .failWrite => ([Ev.text .padNotice, Ev.created .tmpOut], false)
  | .ok sz =>
    let pre := [Ev.text .padNotice, Ev.created .tmpOut,
                Ev.moviepyEncode (padPlan e.duration e.width e.height)]
    if sz ≤ cap then
      if e.sendOk .moviepyNote then
        (pre ++ [Ev.sentOk .moviepyNote .tmpOut, Ev.unlinked .tmpOut], true)
      else
        (pre ++ [Ev.sendFail .moviepyNote .tmpOut], false)
    else
      (pre, false)

/-- The generic exception handler of the ffmpeg block
(bot.py lines 335-339): warn and send the original file as regular video. -/
def encodeFailTail (e : Env) : List Ev :=
  Ev.text .encodeFailWarn :: sendEv e .encodeFailVideo .tempMp4

/-- The ladder-exhausted branch (bot.py lines 326-329): warn and send the
original downloaded file as a regular video; a failure of that send is
caught by the generic handler at line 335. -/
def exhaustedTail (e : Env) : List Ev :=
  Ev.text .exhaustedWarn ::
    (if e.sendOk .exhaustedVideo then [Ev.sentOk .exhaustedVideo .tempMp4]
     else Ev.sendFail .exhaustedVideo .tempMp4 :: encodeFailTail e)

/-- The iterative compression loop (bot.py lines 288-324) over the
remaining attempt list, with `i` the index of the current attempt.  A
nonzero return code unlinks the attempt output and continues; an output
within the cap is sent as a video note and unlinked; an oversized output
is unlinked; a failed send raises into the generic handler. -/
def tryLoop (e : Env) : ℕ → List (ℕ × ℕ) → List Ev
  | _, [] => exhaustedTail e
  | i, (crf, scale) :: rest =>
    Ev.created (.tmpTry i) :: Ev.runTry crf scale ::
      (if e.tryRc i ≠ 0 then
        Ev.unlinked (.tmpTry i) :: tryLoop e (i + 1) rest
      else if e.trySize i ≤ cap then
        (if e.sendOk (.tryNote i) then
          [Ev.sentOk (.tryNote i) (.tmpTry i), Ev.unlinked (.tmpTry i)]
        else
          Ev.sendFail (.tryNote i) (.tmpTry i) :: encodeFailTail e)
      else
        Ev.unlinked (.tmpTry i) :: tryLoop e (i + 1) rest)

/-- The ffmpeg fallback block (bot.py lines 249-339): create the output
tempfile, raise FileNotFoundError when ffmpeg is absent from PATH
(handled at lines 331-334 by warning and sending the original), else run
the pad+scale encode at crf 28, send if within cap, else run the
iterative compression ladder. -/
def ffmpegStage (e : Env) : List Ev :=
  Ev.created .tempFf ::
    (if e.ffmpegInPath then
      Ev.runPad 28 "veryfast" ::
        (if e.ffPadRc ≠ 0 then
          encodeFailTail e
        else if e.ffPadSize ≤ cap then
          (if e.sendOk .ffPadNote then
            [Ev.sentOk .ffPadNote .tempFf, Ev.unlinked .tempFf]
          else
            Ev.sendFail .ffPadNote .tempFf :: encodeFailTail e)
        else
          tryLoop e 0 attempts)
    else
      Ev.text .toolchainMissWarn :: sendEv e .toolchainMissVideo .tempMp4)

/-- The body of `process_mp4` after the download (bot.py lines 170-339):
probe the video (on failure warn and send as regular video); a zero
height raises ZeroDivisionError computing the aspect ratio; if the asset
is near-square, within 60 s and within the cap it is sent directly as a
video note; otherwise the moviepy tier runs, followed by the ffmpeg
block when the moviepy tier did not conclude the request. -/
def videoBody (e : Env) : List Ev :=
  if e.probeOk then
    if e.height = 0 then []
    else if ((9 : ℚ) / 10 ≤ (e.width : ℚ) / (e.height : ℚ) ∧
             (e.width : ℚ) / (e.height : ℚ) ≤ 11 / 10) ∧
            ¬(60 < e.duration) ∧ e.origSize ≤ cap then
      sendEv e .directNote .tempMp4
    else
      (moviepyStage e).1 ++ (if (moviepyStage e).2 then [] else ffmpegStage e)
  else
    Ev.text .analyzeFailWarn :: sendEv e .analyzeFailVideo .tempMp4

/-- `process_mp4` (bot.py lines 152-346): download to a tempfile, run the
body, and unconditionally unlink the downloaded tempfile in the finally
block.  When the download itself fails the tempfile has been created but
its path was never recorded, so the finally block removes nothing. -/
def process_mp4 (e : Env) : List Ev :=
  if e.downloadOk then
    Ev.created .tempMp4 :: (videoBody e ++ [Ev.unlinked .tempMp4])
  else
    [Ev.created .tempMp4]

/-- `process_mp3` (bot.py lines 106-150): download, create the ogg
tempfile, transcode with libopus at 48000 Hz forced to one channel, send
as a voice message; any failure is answered with an error message; the
finally block unlinks both tempfiles whose paths were recorded. -/
def process_mp3 (e : Env) : List Ev :=
  if e.aDownloadOk then
    Ev.created .tempMp3 :: Ev.created .tempOgg ::
      Ev.transcodeAudio 48000 1 "libopus" ::
        ((if e.aTranscodeOk then
            (if e.sendOk .voiceSend then [Ev.sentOk .voiceSend .tempOgg]
             else [Ev.sendFail .voiceSend .tempOgg, Ev.text .mp3Error])
          else [Ev.text .mp3Error])
         ++ [Ev.unlinked .tempMp3, Ev.unlinked .tempOgg])
  else
    [Ev.created .tempMp3, Ev.text .mp3Error]

/-- The three dispatch routes of `handle_document`. -/
inductive Route
  | audio
  | video
  | reject
deriving DecidableEq

/-- `(file_name or '').lower()` (bot.py line 94), on the character list
representation of the optional filename. -/
def lowerName (fileName : Option (List Char)) : List Char :=
  (fileName.getD []).map Char.toLower

/-- Containment of `pat` as a contiguous subsequence of a character list,
the meaning of the Python substring test `pat in s`. -/
def subSeq (pat : List Char) : List Char → Bool
  | [] => pat.isEmpty
  | a :: rest => pat.isPrefixOf (a :: rest) || subSeq pat rest

/-- The classification rule of `handle_document` (bot.py lines 98-104):
extension `.mp3` or mime containing `audio/mpeg` selects the audio path;
else extension `.mp4` or mime containing `video/mp4` selects the video
path; else the attachment is rejected. -/
def classify (fileName : Option (List Char)) (mime : List Char) : Route :=
  if (".mp3".toList.isSuffixOf (lowerName fileName) ||
      subSeq "audio/mpeg".toList mime) then Route.audio
  else if (".mp4".toList.isSuffixOf (lowerName fileName) ||
           subSeq "video/mp4".toList mime) then Route.video
  else Route.reject

/-- `handle_document` (bot.py lines 78-104): dispatch on the
classification; a rejected attachment only receives the rejection text. -/
def handle_document (fileName : Option (List Char)) (mime : List Char)
    (e : Env) : List Ev :=
  match classify fileName mime with
  | Route.audio => process_mp3 e
  | Route.video => process_mp4 e
  | Route.reject => [Ev.text Bot.MsgKind.rejectMsg]

/-- Parameters of an iterative-recompression invocation, when the event
is one. -/
def runTryParams : Ev → Option (ℕ × ℕ)
  | Ev.runTry crf scale => some (crf, scale)
  | _ => none

/-- The (crf, scale) pairs of the iterative-recompression invocations of
a trace, in order. -/
def runsIn (tr : List Ev) : List (ℕ × ℕ) :=
  tr.filterMap runTryParams

/-- Whether an event is the audio transcode invocation. -/
def isTranscodeEv : Ev → Bool
  | Ev.transcodeAudio _ _ _ => true
  | _ => false

/-- A benign baseline environment: non-square 16:9 video, 30 s, small
sizes, all toolchain invocations and sends succeed. -/
def baseEnv : Env where
  downloadOk := true
  probeOk := true
  duration := 30
  width := 192
  height := 108
  origSize := 1000
  moviepyRes := MoviepyRes.ok 1000
  ffmpegInPath := true
  ffPadRc := 0
  ffPadSize := 1000
  tryRc := fun _ => 0
  trySize := fun _ => 1000
  sendOk := fun _ => true
  aDownloadOk := true
  aTranscodeOk := true

/-- Environment for the cleanup counterexample: the moviepy-padded output
exceeds the cap, the ffmpeg-padded output is small enough and is sent. -/
def envC1 : Env :=
  { baseEnv with moviepyRes := MoviepyRes.ok (cap + 1) }

/-- Environment witnessing the amended cleanup claim. -/
def wEnvC1 : Env := baseEnv

/-- Environment for the exhausted-ladder claims: every candidate the
ladder produces exceeds the cap. -/
def envC2 : Env :=
  { baseEnv with
      origSize := 50 * 1024 * 1024
      moviepyRes := MoviepyRes.ok (cap + 1)
      ffPadSize := cap + 1
      trySize := fun _ => cap + 1 }

/-- Environment witnessing direct acceptance: square, short, small. -/
def wEnvC3 : Env :=
  { baseEnv with width := 100, height := 100 }

/-- Environment witnessing the recompression ladder: the first attempt
produces a within-cap output. -/
def wEnvC4 : Env := baseEnv

/-- Environment witnessing the square-pad tier: 16:9 input, moviepy
output within the cap. -/
def wEnvC5 : Env := baseEnv

/-- Environment used to instantiate the classification theorem. -/
def wEnvC6 : Env := baseEnv

/-- Environment with ffmpeg absent from PATH. -/
def wEnvC7 : Env :=
  { baseEnv with ffmpegInPath := false }

/-- Environment for the send-failure claims: the moviepy tier produces a
within-cap candidate but its video-note send fails; every other send
succeeds and the ffmpeg tier also produces a within-cap candidate. -/
def envC8 : Env :=
  { baseEnv with
      sendOk := fun t => match t with
        | SendTag.moviepyNote => false
        | _ => true }

/-- Environment whose audio transcode fails. -/
def wEnvC9 : Env :=
  { baseEnv with aTranscodeOk := false }

/-- A list of characters ending in ".mp4" does not end in ".mp3". -/
theorem suffix_mp4_excludes_mp3 (l : List Char)
    (h : ".mp4".toList.isSuffixOf l = true) :
    ".mp3".toList.isSuffixOf l = false := by
  cases hb : ".mp3".toList.isSuffixOf l with
  | false => rfl
  | true =>
    exfalso
    rw [List.isSuffixOf_iff_suffix] at h hb
    obtain ⟨t1, ht1⟩ := h
    obtain ⟨t2, ht2⟩ := hb
    have hl : t2 ++ ".mp3".toList = t1 ++ ".mp4".toList := ht2.trans ht1.symm
    have hlen : (".mp3".toList).length = (".mp4".toList).length := by decide
    exact absurd (List.append_inj_right' hl hlen) (by decide)

/-- C3: a probed video whose duration is at most 60 seconds, whose aspect
ratio lies in [0.9, 1.1] and whose byte size is within the 20 MiB cap is
directly acceptable: the original file is sent as a video note and no
transform tier is attempted — the trace is exactly download, direct
video-note send of the original, cleanup. -/
theorem direct_accept (e : Env)
    (hdl : e.downloadOk = true) (hpr : e.probeOk = true)
    (hh : e.height ≠ 0)
    (hd : e.duration ≤ 60)
    (h1 : (9 : ℚ) / 10 ≤ (e.width : ℚ) / (e.height : ℚ))
    (h2 : (e.width : ℚ) / (e.height : ℚ) ≤ 11 / 10)
    (hs : e.origSize ≤ cap)
    (hsend : e.sendOk SendTag.directNote = true) :
    process_mp4 e =
      [Ev.created FileId.tempMp4, Ev.sentOk SendTag.directNote FileId.tempMp4,
       Ev.unlinked FileId.tempMp4] := by
  simp [process_mp4, videoBody, sendEv, hdl, hpr, hh, hsend, h1, h2, hs,
    not_lt.mpr hd]

/-- C3 witness: a square 100x100, 30 s, 1000-byte asset is sent directly. -/
theorem direct_accept_witness :
    process_mp4 wEnvC3 =
      [Ev.created FileId.tempMp4, Ev.sentOk SendTag.directNote FileId.tempMp4,
       Ev.unlinked FileId.tempMp4] :=
  direct_accept wEnvC3 rfl rfl (by decide) (by norm_num [wEnvC3, baseEnv])
    (by norm_num [wEnvC3, baseEnv]) (by norm_num [wEnvC3, baseEnv])
    (by norm_num [wEnvC3, baseEnv, cap]) rfl

/-- C7: when ffmpeg is absent from PATH, the fallback block immediately
warns with the toolchain-missing message and sends the original
downloaded file as a regular video, and the toolchain-missing warning is
a kind distinct from the encode-failure warning. -/
theorem toolchain_missing_fallback (e : Env)
    (hff : e.ffmpegInPath = false)
    (hsend : e.sendOk SendTag.toolchainMissVideo = true) :
    ffmpegStage e =
      [Ev.created FileId.tempFf, Ev.text MsgKind.toolchainMissWarn,
       Ev.sentOk SendTag.toolchainMissVideo FileId.tempMp4] ∧
    MsgKind.toolchainMissWarn ≠ MsgKind.encodeFailWarn := by
  constructor
  · simp [ffmpegStage, sendEv, hff, hsend]
  · decide

/-- C7 witness: the fallback block with ffmpeg absent. -/
theorem toolchain_missing_fallback_witness :
    ffmpegStage wEnvC7 =
      [Ev.created FileId.tempFf, Ev.text MsgKind.toolchainMissWarn,
       Ev.sentOk SendTag.toolchainMissVideo FileId.tempMp4] ∧
    MsgKind.toolchainMissWarn ≠ MsgKind.encodeFailWarn :=
  toolchain_missing_fallback wEnvC7 rfl rfl

/-- C9: on the audio path exactly one transform is invoked, with the
libopus codec, a 48000 Hz sample rate and one forced channel; when the
transform fails the user receives the error text, no voice message is
sent, and the transform is not retried. -/
theorem audio_single_transform (e : Env) (hdl : e.aDownloadOk = true) :
    (process_mp3 e).filter isTranscodeEv =
      [Ev.transcodeAudio 48000 1 "libopus"] ∧
    (e.aTranscodeOk = false →
      Ev.text MsgKind.mp3Error ∈ process_mp3 e ∧
      Ev.sentOk SendTag.voiceSend FileId.tempOgg ∉ process_mp3 e) := by
  constructor
  · rcases htr : e.aTranscodeOk <;>
      rcases hs : e.sendOk SendTag.voiceSend <;>
        simp [process_mp3, hdl, htr, hs, isTranscodeEv]
  · intro htr
    simp [process_mp3, hdl, htr]

/-- C9 witness: an audio request whose transform fails. -/
theorem audio_single_transform_witness :
    (process_mp3 wEnvC9).filter isTranscodeEv =
      [Ev.transcodeAudio 48000 1 "libopus"] ∧
    (Ev.text MsgKind.mp3Error ∈ process_mp3 wEnvC9 ∧
      Ev.sentOk SendTag.voiceSend FileId.tempOgg ∉ process_mp3 wEnvC9) :=
  ⟨(audio_single_transform wEnvC9 rfl).1,
   (audio_single_transform wEnvC9 rfl).2 rfl⟩

/-- C6: classification selects the audio path exactly when the lowercased
filename ends in ".mp3" or the mime type contains "audio/mpeg", selects
the video path exactly when the lowercased filename ends in ".mp4" or the
mime type contains "video/mp4" while the audio condition fails, and
otherwise rejects; a rejected attachment produces only the rejection text
and no events at all besides it (in particular no transient files). -/
theorem classification_rule (fileName : Option (List Char))
    (mime : List Char) (e : Env) :
    (classify fileName mime = Route.audio ↔
      (".mp3".toList.isSuffixOf (lowerName fileName) = true ∨
       subSeq "audio/mpeg".toList mime = true)) ∧
    (classify fileName mime = Route.video ↔
      ((".mp4".toList.isSuffixOf (lowerName fileName) = true ∨
        subSeq "video/mp4".toList mime = true) ∧
       ¬(".mp3".toList.isSuffixOf (lowerName fileName) = true ∨
         subSeq "audio/mpeg".toList mime = true))) ∧
    (classify fileName mime = Route.reject ↔
      (¬(".mp3".toList.isSuffixOf (lowerName fileName) = true ∨
         subSeq "audio/mpeg".toList mime = true) ∧
       ¬(".mp4".toList.isSuffixOf (lowerName fileName) = true ∨
         subSeq "video/mp4".toList mime = true))) ∧
    (classify fileName mime = Route.reject →
      handle_document fileName mime e = [Ev.text MsgKind.rejectMsg]) := by
  refine ⟨?_, ?_, ?_, fun hrej => by simp [handle_document, hrej]⟩ <;>
    (unfold classify; split_ifs with h1 h2 <;> simp_all [Bool.or_eq_true])

/-- C6 witness: a ".txt" attachment is rejected with only the rejection
text. -/
theorem classification_rule_witness :
    handle_document (some "x.txt".toList) ("text/plain".toList) wEnvC6 =
      [Ev.text MsgKind.rejectMsg] :=
  (classification_rule (some "x.txt".toList) ("text/plain".toList)
    wEnvC6).2.2.2 (by decide)

/-- C10: the filename extension takes precedence: a filename ending in
".mp3" is routed to the audio path whatever the mime type says, and a
filename ending in ".mp4" is routed to the video path whenever the mime
type does not contain "audio/mpeg", whatever else it declares. -/
theorem extension_precedence (fileName : Option (List Char))
    (mime : List Char) :
    (".mp3".toList.isSuffixOf (lowerName fileName) = true →
      classify fileName mime = Route.audio) ∧
    (".mp4".toList.isSuffixOf (lowerName fileName) = true →
      subSeq "audio/mpeg".toList mime = false →
      classify fileName mime = Route.video) := by
  constructor
  · intro h3
    unfold classify
    rw [if_pos (by rw [h3]; rfl)]
  · intro h4 hm
    have h3 := suffix_mp4_excludes_mp3 _ h4
    unfold classify
    rw [if_neg (by rw [h3, hm]; exact Bool.false_ne_true),
      if_pos (by rw [h4]; rfl)]

/-- C10 witness: a ".mp3" filename with a video mime goes to the audio
path, and a ".mp4" filename with a non-mpeg audio mime goes to the video
path. -/
theorem extension_precedence_witness :
    classify (some "song.Mp3".toList) ("video/mp4".toList) = Route.audio ∧
    classify (some "clip.mp4".toList) ("audio/ogg".toList) = Route.video :=
  ⟨(extension_precedence (some "song.Mp3".toList) ("video/mp4".toList)).1
      (by decide),
   (extension_precedence (some "clip.mp4".toList) ("audio/ogg".toList)).2
      (by decide) (by decide)⟩

/-- C5: for a probed video whose aspect ratio falls outside [0.9, 1.1]
the square-pad tier is applied regardless of size and duration: the pad
notice is sent, and when the moviepy pipeline completes, its encode uses
the square-pad plan — trim to 60 s exactly when the duration exceeds
60 s, longest side resized to 360, centered composite onto a black
360 x 360 canvas — and its output is sent as a video note when it is
within the 20 MiB cap. -/
theorem square_pad_tier (e : Env)
    (hdl : e.downloadOk = true) (hpr : e.probeOk = true) (hh : e.height ≠ 0)
    (hasp : (e.width : ℚ) / (e.height : ℚ) < 9 / 10 ∨
            11 / 10 < (e.width : ℚ) / (e.height : ℚ)) :
    Ev.text MsgKind.padNotice ∈ process_mp4 e ∧
    (∀ sz, e.moviepyRes = MoviepyRes.ok sz →
      Ev.moviepyEncode (padPlan e.duration e.width e.height) ∈
        process_mp4 e ∧
      (sz ≤ cap → e.sendOk SendTag.moviepyNote = true →
        Ev.sentOk SendTag.moviepyNote FileId.tmpOut ∈ process_mp4 e)) ∧
    (padPlan e.duration e.width e.height).canvasW = 360 ∧
    (padPlan e.duration e.width e.height).canvasH = 360 ∧
    (padPlan e.duration e.width e.height).canvasColor = (0, 0, 0) ∧
    (60 < e.duration →
      (padPlan e.duration e.width e.height).trimTo = some 60) ∧
    (e.duration ≤ 60 →
      (padPlan e.duration e.width e.height).trimTo = none) ∧
    (e.height ≤ e.width →
      (padPlan e.duration e.width e.height).resizeWidthTo = some 360) ∧
    (e.width < e.height →
      (padPlan e.duration e.width e.height).resizeHeightTo = some 360) := by
  have hns2 : ¬(((9 : ℚ) / 10 ≤ (e.width : ℚ) / (e.height : ℚ) ∧
      (e.width : ℚ) / (e.height : ℚ) ≤ 11 / 10) ∧
      e.duration ≤ 60 ∧ e.origSize ≤ cap) := by
    rcases hasp with h | h
    · exact fun hc => absurd hc.1.1 (not_le.mpr h)
    · exact fun hc => absurd hc.1.2 (not_le.mpr h)
  have hvb : videoBody e =
      (moviepyStage e).1 ++
        (if (moviepyStage e).2 then [] else ffmpegStage e) := by
    simp [videoBody, hpr, hh, hns2]
  have hproc : process_mp4 e =
      Ev.created FileId.tempMp4 ::
        (videoBody e ++ [Ev.unlinked FileId.tempMp4]) := by
    simp [process_mp4, hdl]
  refine ⟨?_, ?_, ?_, ?_, ?_, ?_, ?_, ?_, ?_⟩
  · have hmem1 : Ev.text MsgKind.padNotice ∈ (moviepyStage e).1 := by
      rcases hm : e.moviepyRes with _ | _ | sz
      · simp [moviepyStage, hm]
      · simp [moviepyStage, hm]
      · simp only [moviepyStage, hm]
        split_ifs <;> simp
    rw [hproc, hvb]
    exact List.mem_cons_of_mem _
      (List.mem_append_left _ (List.mem_append_left _ hmem1))
  · intro sz hm
    constructor
    · have hmem2 : Ev.moviepyEncode (padPlan e.duration e.width e.height) ∈
          (moviepyStage e).1 := by
        simp only [moviepyStage, hm]
        split_ifs <;> simp
      rw [hproc, hvb]
      exact List.mem_cons_of_mem _
        (List.mem_append_left _ (List.mem_append_left _ hmem2))
    · intro hsz hsend
      have hmem3 : Ev.sentOk SendTag.moviepyNote FileId.tmpOut ∈
          (moviepyStage e).1 := by
        simp [moviepyStage, hm, hsz, hsend]
      rw [hproc, hvb]
      exact List.mem_cons_of_mem _
        (List.mem_append_left _ (List.mem_append_left _ hmem3))
  · simp [padPlan, TARGET_SIDE]
  · simp [padPlan, TARGET_SIDE]
  · simp [padPlan]
  · intro h
    simp [padPlan, h]
  · intro h
    simp [padPlan, not_lt.mpr h]
  · intro h
    simp [padPlan, TARGET_SIDE, h]
  · intro h
    simp [padPlan, TARGET_SIDE, not_le.mpr h]

/-- C5 witness: a 16:9 asset goes through the pad tier and its within-cap
moviepy output is sent as a video note. -/
theorem square_pad_tier_witness :
    Ev.text MsgKind.padNotice ∈ process_mp4 wEnvC5 ∧
    Ev.moviepyEncode (padPlan wEnvC5.duration wEnvC5.width wEnvC5.height) ∈
      process_mp4 wEnvC5 ∧
    Ev.sentOk SendTag.moviepyNote FileId.tmpOut ∈ process_mp4 wEnvC5 :=
  ⟨(square_pad_tier wEnvC5 rfl rfl (by decide)
      (Or.inr (by norm_num [wEnvC5, baseEnv]))).1,
   ((square_pad_tier wEnvC5 rfl rfl (by decide)
      (Or.inr (by norm_num [wEnvC5, baseEnv]))).2.1 1000 rfl).1,
   ((square_pad_tier wEnvC5 rfl rfl (by decide)
      (Or.inr (by norm_num [wEnvC5, baseEnv]))).2.1 1000 rfl).2
     (by norm_num [cap]) rfl⟩

/-- C4: the recompression ladder is strictly ordered in aggressiveness
(the quality factor strictly increases and the scale target strictly
decreases along the list), the pairs are attempted in list order, and
the iteration stops at the first attempt whose output size is within the
20 MiB cap: the invocations recorded are exactly the prefix of the list
up to and including the first successful attempt, whose output is sent
as a video note. -/
theorem recompress_ladder :
    List.Chain' (fun p q => p.1 < q.1 ∧ q.2 < p.2) attempts ∧
    ∀ (e : Env) (k : ℕ), k < attempts.length →
      (∀ j, j < k → e.tryRc j = 0 → cap < e.trySize j) →
      e.tryRc k = 0 → e.trySize k ≤ cap →
      e.sendOk (SendTag.tryNote k) = true →
      (runsIn (tryLoop e 0 attempts) = attempts.take (k + 1) ∧
       Ev.sentOk (SendTag.tryNote k) (FileId.tmpTry k) ∈
         tryLoop e 0 attempts) := by
  constructor
  · norm_num [attempts, List.chain'_cons, List.chain'_singleton]
  · intro e k hk hprev hrc hsz hsend
    have hk3 : k < 3 := by simpa [attempts] using hk
    interval_cases k
    · simp [tryLoop, attempts, runsIn, runTryParams, hrc, hsz, hsend]
    · have h0 := hprev 0 (by norm_num)
      by_cases hrc0 : e.tryRc 0 = 0
      · have hs0 : ¬e.trySize 0 ≤ cap := not_le.mpr (h0 hrc0)
        simp [tryLoop, attempts, runsIn, runTryParams, hrc, hsz, hsend,
          hrc0, hs0]
      · simp [tryLoop, attempts, runsIn, runTryParams, hrc, hsz, hsend,
          hrc0]
    · have h0 := hprev 0 (by norm_num)
      have h1 := hprev 1 (by norm_num)
      by_cases hrc0 : e.tryRc 0 = 0
      · have hs0 : ¬e.trySize 0 ≤ cap := not_le.mpr (h0 hrc0)
        by_cases hrc1 : e.tryRc 1 = 0
        · have hs1 : ¬e.trySize 1 ≤ cap := not_le.mpr (h1 hrc1)
          simp [tryLoop, attempts, runsIn, runTryParams, hrc, hsz, hsend,
            hrc0, hs0, hrc1, hs1]
        · simp [tryLoop, attempts, runsIn, runTryParams, hrc, hsz, hsend,
            hrc0, hs0, hrc1]
      · by_cases hrc1 : e.tryRc 1 = 0
        · have hs1 : ¬e.trySize 1 ≤ cap := not_le.mpr (h1 hrc1)
          simp [tryLoop, attempts, runsIn, runTryParams, hrc, hsz, hsend,
            hrc0, hrc1, hs1]
        · simp [tryLoop, attempts, runsIn, runTryParams, hrc, hsz, hsend,
            hrc0, hrc1]

/-- C4 witness: with the first attempt succeeding, exactly the first pair
is run and its output is sent. -/
theorem recompress_ladder_witness :
    runsIn (tryLoop wEnvC4 0 attempts) = attempts.take 1 ∧
    Ev.sentOk (SendTag.tryNote 0) (FileId.tmpTry 0) ∈
      tryLoop wEnvC4 0 attempts :=
  recompress_ladder.2 wEnvC4 0 (by decide)
    (fun j hj => absurd hj (Nat.not_lt_zero j)) rfl (by decide) rfl

/-- The iterative loop with every attempt failing (nonzero return code or
oversized output) always falls through to the exhausted branch. -/
theorem tryLoop_all_fail (e : Env)
    (hall : ∀ i, e.tryRc i = 0 → cap < e.trySize i) :
    ∀ (l : List (ℕ × ℕ)) (i0 : ℕ),
      ∃ pre, tryLoop e i0 l = pre ++ exhaustedTail e := by
  intro l
  induction l with
  | nil => exact fun _ => ⟨[], rfl⟩
  | cons a rest ih =>
    intro i0
    obtain ⟨crf, scale⟩ := a
    obtain ⟨pre, hpre⟩ := ih (i0 + 1)
    refine ⟨Ev.created (FileId.tmpTry i0) :: Ev.runTry crf scale ::
      Ev.unlinked (FileId.tmpTry i0) :: pre, ?_⟩
    by_cases hrc : e.tryRc i0 = 0
    · have hs := not_le.mpr (hall i0 hrc)
      simp [tryLoop, hrc, hs, hpre]
    · simp [tryLoop, hrc, hpre]

/-- C2 (amended): when the ffmpeg pad output exceeds the cap and every
iterative attempt fails, the exhausted branch always warns and then
sends the original downloaded asset as a regular video — never an
intermediate candidate. -/
theorem exhausted_sends_original (e : Env)
    (hff : e.ffmpegInPath = true) (hrc : e.ffPadRc = 0)
    (hsz : cap < e.ffPadSize)
    (hall : ∀ i, e.tryRc i = 0 → cap < e.trySize i)
    (hsend : e.sendOk SendTag.exhaustedVideo = true) :
    ∃ pre, ffmpegStage e =
      pre ++ [Ev.text MsgKind.exhaustedWarn,
              Ev.sentOk SendTag.exhaustedVideo FileId.tempMp4] := by
  obtain ⟨pre, hpre⟩ := tryLoop_all_fail e hall attempts 0
  refine ⟨Ev.created FileId.tempFf :: Ev.runPad 28 "veryfast" :: pre, ?_⟩
  simp [ffmpegStage, hff, hrc, not_le.mpr hsz, hpre, exhaustedTail, hsend]

/-- C2 witness: in an environment where every candidate is oversized, the
fallback block ends with the exhausted warning and a regular-video send
of the original asset. -/
theorem exhausted_sends_original_witness :
    ∃ pre, ffmpegStage envC2 =
      pre ++ [Ev.text MsgKind.exhaustedWarn,
              Ev.sentOk SendTag.exhaustedVideo FileId.tempMp4] :=
  exhausted_sends_original envC2 rfl rfl (Nat.lt_succ_self cap)
    (fun _ _ => Nat.lt_succ_self cap) rfl

/-- C2 counterexample: every tier fails while intermediate candidates
exist (the moviepy and ffmpeg outputs were produced), yet the fallback
sends the original downloaded asset, not any intermediate: the full
trace shows the only video sent is the original file. -/
theorem exhausted_ignores_intermediate_cex :
    process_mp4 envC2 =
      [Ev.created FileId.tempMp4, Ev.text MsgKind.padNotice,
       Ev.created FileId.tmpOut, Ev.moviepyEncode (padPlan 30 192 108),
       Ev.created FileId.tempFf, Ev.runPad 28 "veryfast",
       Ev.created (FileId.tmpTry 0), Ev.runTry 30 480,
       Ev.unlinked (FileId.tmpTry 0),
       Ev.created (FileId.tmpTry 1), Ev.runTry 32 360,
       Ev.unlinked (FileId.tmpTry 1),
       Ev.created (FileId.tmpTry 2), Ev.runTry 35 320,
       Ev.unlinked (FileId.tmpTry 2),
       Ev.text MsgKind.exhaustedWarn,
       Ev.sentOk SendTag.exhaustedVideo FileId.tempMp4,
       Ev.unlinked FileId.tempMp4] ∧
    Ev.created FileId.tmpOut ∈ process_mp4 envC2 ∧
    Ev.sentOk SendTag.exhaustedVideo FileId.tempMp4 ∈ process_mp4 envC2 ∧
    Ev.sentOk SendTag.exhaustedVideo FileId.tmpOut ∉ process_mp4 envC2 ∧
    Ev.sentOk SendTag.exhaustedVideo FileId.tempFf ∉ process_mp4 envC2 := by
  have h : process_mp4 envC2 =
      [Ev.created FileId.tempMp4, Ev.text MsgKind.padNotice,
       Ev.created FileId.tmpOut, Ev.moviepyEncode (padPlan 30 192 108),
       Ev.created FileId.tempFf, Ev.runPad 28 "veryfast",
       Ev.created (FileId.tmpTry 0), Ev.runTry 30 480,
       Ev.unlinked (FileId.tmpTry 0),
       Ev.created (FileId.tmpTry 1), Ev.runTry 32 360,
       Ev.unlinked (FileId.tmpTry 1),
       Ev.created (FileId.tmpTry 2), Ev.runTry 35 320,
       Ev.unlinked (FileId.tmpTry 2),
       Ev.text MsgKind.exhaustedWarn,
       Ev.sentOk SendTag.exhaustedVideo FileId.tempMp4,
       Ev.unlinked FileId.tempMp4] := by
    norm_num [process_mp4, videoBody, moviepyStage, ffmpegStage, tryLoop,
      exhaustedTail, encodeFailTail, sendEv, padPlan, attempts, cap,
      envC2, baseEnv]
  refine ⟨h, ?_, ?_, ?_, ?_⟩ <;> rw [h] <;> decide

/-- C1 counterexample: when the moviepy-padded output exceeds the cap
and the ffmpeg tier then succeeds, the moviepy-padded tempfile is
created but never unlinked — it survives the request. -/
theorem cleanup_leak_cex :
    Ev.created FileId.tmpOut ∈ process_mp4 envC1 ∧
    Ev.unlinked FileId.tmpOut ∉ process_mp4 envC1 := by
  have h : process_mp4 envC1 =
      [Ev.created FileId.tempMp4, Ev.text MsgKind.padNotice,
       Ev.created FileId.tmpOut, Ev.moviepyEncode (padPlan 30 192 108),
       Ev.created FileId.tempFf, Ev.runPad 28 "veryfast",
       Ev.sentOk SendTag.ffPadNote FileId.tempFf,
       Ev.unlinked FileId.tempFf, Ev.unlinked FileId.tempMp4] := by
    norm_num [process_mp4, videoBody, moviepyStage, ffmpegStage, tryLoop,
      exhaustedTail, encodeFailTail, sendEv, padPlan, attempts, cap,
      envC1, baseEnv]
  rw [h]
  decide

/-- No created event for an iterative-attempt file appears in the
moviepy stage trace. -/
theorem moviepyStage_no_tmpTry (e : Env) (j : ℕ) :
    Ev.created (FileId.tmpTry j) ∉ (moviepyStage e).1 := by
  rcases hm : e.moviepyRes with _ | _ | sz
  · simp [moviepyStage, hm]
  · simp [moviepyStage, hm]
  · simp only [moviepyStage, hm]
    split_ifs <;> simp

/-- In the iterative loop, when every send succeeds, every attempt file
that is created is also unlinked. -/
theorem tryLoop_created_unlinked (e : Env)
    (hsend : ∀ t, e.sendOk t = true) :
    ∀ (l : List (ℕ × ℕ)) (i0 j : ℕ),
      Ev.created (FileId.tmpTry j) ∈ tryLoop e i0 l →
      Ev.unlinked (FileId.tmpTry j) ∈ tryLoop e i0 l := by
  intro l
  induction l with
  | nil =>
    intro i0 j hmem
    simp [tryLoop, exhaustedTail, hsend SendTag.exhaustedVideo] at hmem
  | cons a rest ih =>
    intro i0 j hmem
    obtain ⟨crf, scale⟩ := a
    by_cases hrc : e.tryRc i0 = 0
    · by_cases hsz : e.trySize i0 ≤ cap
      · simp [tryLoop, hrc, hsz, hsend (SendTag.tryNote i0)] at hmem ⊢
        exact hmem
      · simp [tryLoop, hrc, hsz] at hmem ⊢
        rcases hmem with h | h
        · exact Or.inl h
        · exact Or.inr (ih _ _ h)
    · simp [tryLoop, hrc] at hmem ⊢
      rcases hmem with h | h
      · exact Or.inl h
      · exact Or.inr (ih _ _ h)

/-- In the ffmpeg fallback block, when every send succeeds, every
attempt file that is created is also unlinked. -/
theorem ffmpegStage_created_unlinked (e : Env)
    (hsend : ∀ t, e.sendOk t = true) (j : ℕ)
    (hmem : Ev.created (FileId.tmpTry j) ∈ ffmpegStage e) :
    Ev.unlinked (FileId.tmpTry j) ∈ ffmpegStage e := by
  by_cases hff : e.ffmpegInPath = true
  · by_cases hrc : e.ffPadRc = 0
    · by_cases hsz : e.ffPadSize ≤ cap
      · simp [ffmpegStage, hff, hrc, hsz,
          hsend SendTag.ffPadNote] at hmem
      · simp only [ffmpegStage, hff, if_true] at hmem ⊢
        simp [hrc, hsz] at hmem ⊢
        exact tryLoop_created_unlinked e hsend attempts 0 j hmem
    · simp [ffmpegStage, hff, hrc, encodeFailTail, sendEv,
        hsend SendTag.encodeFailVideo] at hmem
  · simp [ffmpegStage, hff, sendEv,
      hsend SendTag.toolchainMissVideo] at hmem

/-- In the video body, when every send succeeds, every attempt file that
is created is also unlinked. -/
theorem videoBody_created_unlinked (e : Env)
    (hsend : ∀ t, e.sendOk t = true) (j : ℕ)
    (hmem : Ev.created (FileId.tmpTry j) ∈ videoBody e) :
    Ev.unlinked (FileId.tmpTry j) ∈ videoBody e := by
  by_cases hpr : e.probeOk = true
  · by_cases hh : e.height = 0
    · simp [videoBody, hpr, hh] at hmem
    · rw [videoBody] at hmem ⊢
      rw [if_pos hpr, if_neg hh] at hmem ⊢
      split_ifs at hmem ⊢ with hdir hdone
      · simp [sendEv, hsend SendTag.directNote] at hmem
      · rw [List.append_nil] at hmem ⊢
        exact absurd hmem (moviepyStage_no_tmpTry e j)
      · rcases List.mem_append.mp hmem with h | h
        · exact absurd h (moviepyStage_no_tmpTry e j)
        · exact List.mem_append_right _
            (ffmpegStage_created_unlinked e hsend j h)
  · simp [videoBody, hpr, sendEv, hsend SendTag.analyzeFailVideo] at hmem

/-- C1 (amended): the downloaded video tempfile is unlinked before
return whenever the download succeeded, whatever else fails; when every
send succeeds, every iterative-compression output that is created is
unlinked; and on the audio path both tempfiles are unlinked whenever its
download succeeded, whatever else fails.  The moviepy-padded and
ffmpeg-padded outputs are exempt: each survives the request when it
exceeds the cap, as the counterexample shows. -/
theorem cleanup_amended (e : Env) :
    (e.downloadOk = true →
      Ev.unlinked FileId.tempMp4 ∈ process_mp4 e) ∧
    ((∀ t, e.sendOk t = true) →
      ∀ j, Ev.created (FileId.tmpTry j) ∈ process_mp4 e →
        Ev.unlinked (FileId.tmpTry j) ∈ process_mp4 e) ∧
    (e.aDownloadOk = true →
      Ev.unlinked FileId.tempMp3 ∈ process_mp3 e ∧
      Ev.unlinked FileId.tempOgg ∈ process_mp3 e) := by
  refine ⟨?_, ?_, ?_⟩
  · intro hdl
    simp [process_mp4, hdl]
  · intro hsend j hmem
    by_cases hdl : e.downloadOk = true
    · simp only [process_mp4, hdl] at hmem ⊢
      simp at hmem ⊢
      exact videoBody_created_unlinked e hsend j hmem
    · simp [process_mp4, hdl] at hmem
  · intro hadl
    rcases htr : e.aTranscodeOk with _ | _ <;>
      rcases hs : e.sendOk SendTag.voiceSend with _ | _ <;>
        simp [process_mp3, hadl, htr, hs]

/-- C1 (amended) witness: in a benign environment the downloaded video
tempfile and both audio tempfiles are unlinked. -/
theorem cleanup_amended_witness :
    Ev.unlinked FileId.tempMp4 ∈ process_mp4 wEnvC1 ∧
    Ev.unlinked FileId.tempMp3 ∈ process_mp3 wEnvC1 ∧
    Ev.unlinked FileId.tempOgg ∈ process_mp3 wEnvC1 :=
  ⟨(cleanup_amended wEnvC1).1 rfl,
   ((cleanup_amended wEnvC1).2.2 rfl).1,
   ((cleanup_amended wEnvC1).2.2 rfl).2⟩

/-- C8 counterexample: the moviepy conversion succeeds (its output is
within the cap) but its video-note send fails, and the code then
attempts — and completes — a further fallback tier send: the failure is
not terminal. -/
theorem send_fail_not_terminal_cex :
    process_mp4 envC8 =
      [Ev.created FileId.tempMp4, Ev.text MsgKind.padNotice,
       Ev.created FileId.tmpOut, Ev.moviepyEncode (padPlan 30 192 108),
       Ev.sendFail SendTag.moviepyNote FileId.tmpOut,
       Ev.created FileId.tempFf, Ev.runPad 28 "veryfast",
       Ev.sentOk SendTag.ffPadNote FileId.tempFf,
       Ev.unlinked FileId.tempFf, Ev.unlinked FileId.tempMp4] ∧
    Ev.sendFail SendTag.moviepyNote FileId.tmpOut ∈ process_mp4 envC8 ∧
    Ev.sentOk SendTag.ffPadNote FileId.tempFf ∈ process_mp4 envC8 := by
  have h : process_mp4 envC8 =
      [Ev.created FileId.tempMp4, Ev.text MsgKind.padNotice,
       Ev.created FileId.tmpOut, Ev.moviepyEncode (padPlan 30 192 108),
       Ev.sendFail SendTag.moviepyNote FileId.tmpOut,
       Ev.created FileId.tempFf, Ev.runPad 28 "veryfast",
       Ev.sentOk SendTag.ffPadNote FileId.tempFf,
       Ev.unlinked FileId.tempFf, Ev.unlinked FileId.tempMp4] := by
    norm_num [process_mp4, videoBody, moviepyStage, ffmpegStage, tryLoop,
      exhaustedTail, encodeFailTail, sendEv, padPlan, attempts, cap,
      envC8, baseEnv]
  refine ⟨h, ?_, ?_⟩ <;> rw [h] <;> decide

/-- C8 (amended): a failed video-note send of a successful moviepy
conversion is not terminal for the request: the exception is caught by
the enclosing handler and the ffmpeg fallback block is attempted next. -/
theorem send_fail_escalates (e : Env) (sz : ℕ)
    (hdl : e.downloadOk = true) (hpr : e.probeOk = true)
    (hh : e.height ≠ 0)
    (hasp : 11 / 10 < (e.width : ℚ) / (e.height : ℚ))
    (hm : e.moviepyRes = MoviepyRes.ok sz) (hsz : sz ≤ cap)
    (hsend : e.sendOk SendTag.moviepyNote = false) :
    process_mp4 e =
      Ev.created FileId.tempMp4 ::
        (([Ev.text MsgKind.padNotice, Ev.created FileId.tmpOut,
           Ev.moviepyEncode (padPlan e.duration e.width e.height),
           Ev.sendFail SendTag.moviepyNote FileId.tmpOut] ++
          ffmpegStage e) ++ [Ev.unlinked FileId.tempMp4]) := by
  have hns2 : ¬(((9 : ℚ) / 10 ≤ (e.width : ℚ) / (e.height : ℚ) ∧
      (e.width : ℚ) / (e.height : ℚ) ≤ 11 / 10) ∧
      e.duration ≤ 60 ∧ e.origSize ≤ cap) :=
    fun hc => absurd hc.1.2 (not_le.mpr hasp)
  simp [process_mp4, videoBody, moviepyStage, hdl, hpr, hh, hns2, hm,
    hsz, hsend]

/-- C8 (amended) witness: the escalation trace at the concrete
environment of the counterexample. -/
theorem send_fail_escalates_witness :
    process_mp4 envC8 =
      Ev.created FileId.tempMp4 ::
        (([Ev.text MsgKind.padNotice, Ev.created FileId.tmpOut,
           Ev.moviepyEncode
             (padPlan envC8.duration envC8.width envC8.height),
           Ev.sendFail SendTag.moviepyNote FileId.tmpOut] ++
          ffmpegStage envC8) ++ [Ev.unlinked FileId.tempMp4]) :=
  send_fail_escalates envC8 1000 rfl rfl (by decide)
    (by norm_num [envC8, baseEnv]) rfl (by decide) rfl

end Bot
